import Mathlib

/-!
Shallow embedding of the nonlinear state-variable filter of src/lib.rs
(a zero-delay-feedback SVF with a fixed-pivot solver and a capped Newton
solver). f32 values are modelled as real numbers and f32 arithmetic as
exact real arithmetic; division is the total Mathlib division on ℝ
(x / 0 = 0). The names of the definitions follow the names in the source.
-/

open Real

/-- Fields of the shared FilterParameters object that src/lib.rs reads and
writes: cutoff, res (the feedback coefficient k), drive, mode, sample_rate
and the derived coefficient g. -/
structure FilterParameters where
  cutoff : ℝ
  res : ℝ
  drive : ℝ
  mode : ℕ
  sample_rate : ℝ
  g : ℝ

/-- Modelled from the spec: the parameter-cell module (parameter.rs,
filter_parameters.rs, utils.rs) is not among the sources. The
normalized-value conversions used by set_parameter and get_parameter
(set_normalized / get_normalized of each cell) are therefore kept abstract
as a bundle of functions; nothing below depends on their concrete shape. -/
structure ParamConvs where
  cutoffFromNorm : ℝ → ℝ
  resFromNorm : ℝ → ℝ
  driveFromNorm : ℝ → ℝ
  modeFromNorm : ℝ → ℕ
  cutoffToNorm : ℝ → ℝ
  resToNorm : ℝ → ℝ
  driveToNorm : ℝ → ℝ
  modeToNorm : ℕ → ℝ

/-- A concrete conversion bundle, used to instantiate statements at
explicit inputs. -/
def idConvs : ParamConvs :=
  ⟨fun x => x, fun x => x, fun x => x, fun _ => 0,
   fun x => x, fun x => x, fun x => x, fun _ => 0⟩

/-- update_g of src/lib.rs: g := tan(π · cutoff / sample_rate). -/
noncomputable def update_g (p : FilterParameters) : FilterParameters :=
  { p with g := Real.tan (π * p.cutoff / p.sample_rate) }

/-- set_sample_rate of src/lib.rs: it stores the new rate and does nothing
else (in particular it does not touch g). -/
def set_sample_rate (rate : ℝ) (p : FilterParameters) : FilterParameters :=
  { p with sample_rate := rate }

/-- get_parameter of src/lib.rs: indices 0..=3 read the normalized
parameter values; any other index yields 0.0. -/
def get_parameter (c : ParamConvs) (index : ℤ) (p : FilterParameters) : ℝ :=
  if index = 0 then c.cutoffToNorm p.cutoff
  else if index = 1 then c.resToNorm p.res
  else if index = 2 then c.driveToNorm p.drive
  else if index = 3 then c.modeToNorm p.mode
  else 0

/-- set_parameter of src/lib.rs: index 0 stores the cutoff and immediately
recomputes g via update_g; indices 1..=3 store res, drive, mode; any other
index is a no-op. -/
noncomputable def set_parameter (c : ParamConvs) (index : ℤ) (value : ℝ)
    (p : FilterParameters) : FilterParameters :=
  if index = 0 then update_g { p with cutoff := c.cutoffFromNorm value }
  else if index = 1 then { p with res := c.resFromNorm value }
  else if index = 2 then { p with drive := c.driveFromNorm value }
  else if index = 3 then { p with mode := c.modeFromNorm value }
  else p

/-- Output-selection match block that ends every solver variant in
src/lib.rs (modes 0..4 and the catch-all arm). -/
def modeOutput (mode : ℕ) (input k v0 v1 : ℝ) : ℝ :=
  match mode with
  | 0 => v1
  | 1 => input - k * v0 - v1
  | 2 => v0
  | 3 => input - k * v0
  | 4 => input - 2 * v1 - k * v0
  | _ => k * v0

/-- The SVF struct of src/lib.rs: parameter handle, the two solved output
voltages vout and the two trapezoidal states s. -/
structure SVF where
  params : FilterParameters
  vout0 : ℝ
  vout1 : ℝ
  s0 : ℝ
  s1 : ℝ

/-- update_state of src/lib.rs: s[n] := 2·vout[n] − s[n]. -/
def update_state (f : SVF) : SVF :=
  { f with s0 := 2 * f.vout0 - f.s0, s1 := 2 * f.vout1 - f.s1 }

/-- run_svf_linear of src/lib.rs: the linear SVF solved in closed form. -/
noncomputable def run_svf_linear (f : SVF) (input : ℝ) : SVF × ℝ :=
  let g := f.params.g
  let k := f.params.res
  let g1 := 1 / (1 + g * (g + k))
  let g2 := g * g1
  let v0 := g1 * f.s0 + g2 * (input - f.s1)
  let v1 := f.s1 + g * v0
  ({ f with vout0 := v0, vout1 := v1 },
   modeOutput f.params.mode input k v0 v1)

/-- Constant v_t of run_svf_pivotal. -/
def v_t : ℝ := 4

/-- Constant i_s of run_svf_pivotal. -/
def i_s : ℝ := 4

/-- Guarded fixed-pivot gain for the diode antisaturator: the a[2]
assignment of run_svf_pivotal. The gain keeps its initial value 1 when the
estimate is exactly zero, otherwise it is v_t·asinh(e/i_s)/e. -/
noncomputable def pivotalA2 (e : ℝ) : ℝ :=
  if e ≠ 0 then v_t * Real.arsinh (e / i_s) / e else 1

/-- Guarded fixed-pivot gain tanh(e)/e: the a[0] and a[1] assignments of
run_svf_pivotal. The gain keeps its initial value 1 when the estimate is
exactly zero. -/
noncomputable def tanhGain (e : ℝ) : ℝ :=
  if e ≠ 0 then Real.tanh e / e else 1

/-- run_svf_pivotal of src/lib.rs. The estimate source is
EstimateSource::State, so get_estimate(n, State, input) is s[n] and the
linear filter is not run. -/
noncomputable def run_svf_pivotal (f : SVF) (input : ℝ) : SVF × ℝ :=
  let g := f.params.g
  let k := f.params.res
  let est_source_a2 := f.s0
  let a2 := pivotalA2 est_source_a2
  let est0 := input - (est_source_a2 * a2 + (k - 1) * est_source_a2) - f.s1
  let est1 := f.s0
  let a0 := tanhGain est0
  let a1 := tanhGain est1
  let g1 := 1 / (g * a0)
  let g2 := 1 / (a0 * a2 * g * g1 * k - a0 * a2 * g * g1 + a2 * g1 + 1)
  let g3 := 1 / (1 + g ^ 2 * a0 * a1 * g1 * g2 * a2)
  let u := (g * a0 * input - g * a0 * f.s1 + f.s0) * g1 * g2 * g3
  let v0 := Real.arsinh u
  let v1 := g * a1 * v0 + f.s1
  ({ f with vout0 := v0, vout1 := v1 },
   modeOutput f.params.mode input k v0 v1)

/-- Residual helper run_svf of src/lib.rs: it evaluates the implicit ZDF
system at the estimate (v0, v1); the sinh antisaturator sits inside the
first tanh, the second component saturates v0 with tanh. -/
noncomputable def run_svf (g k s0 s1 input v0 v1 : ℝ) : ℝ × ℝ :=
  (g * Real.tanh (input - ((k - 1) * v0 + Real.sinh v0) - v1) + s0,
   g * Real.tanh v0 + s1)

/-- Newton tolerance max_error = 0.00001 of run_svf_newton2. -/
noncomputable def max_error : ℝ := 1 / 100000

/-- One substitution pass of the Newton refinement in run_svf_newton2: the
jacobian entries (jacobian[1][1] = −1 is set but unused by the update
formulas) and the closed-form update of both components of v_est. The
division by the substitution denominator j01·j10 + j00 is the total
Mathlib division; at an exactly vanishing denominator the f32 source
yields ±inf/NaN instead of 0, so no theorem below draws a conclusion from
the x / 0 = 0 value of this definition. -/
noncomputable def newtonStep (g k input v0 v1 r0 r1 : ℝ) : ℝ × ℝ :=
  let bigboy := Real.cosh (v0 * k + Real.sinh v0 - input - v0 + v1) ^ 2
  let j00 := (-bigboy - g * (k - 1 + Real.cosh v0)) / bigboy
  let j01 := -(g / bigboy)
  let j10 := g / Real.cosh v0 ^ 2
  ((j01 * j10 * v0 + j00 * v0 - j01 * r1 - r0) / (j01 * j10 + j00),
   (j01 * j10 * v1 + j00 * r1 + j00 * v1 - j10 * r0) / (j01 * j10 + j00))

/-- While loop of run_svf_newton2: refine while a residual component
exceeds max_error in magnitude; a pass first checks the n_iterations > 100
guard (breaking when it holds), then performs the Newton step and
recomputes the residual from run_svf. Returns the final estimate together
with the final value of the n_iterations counter, which counts the
refinement passes performed. -/
noncomputable def newtonLoop (g k s0 s1 input : ℝ)
    (v0 v1 r0 r1 : ℝ) (n : ℕ) : (ℝ × ℝ) × ℕ :=
  if max_error < |r0| ∨ max_error < |r1| then
    if h : 100 < n then ((v0, v1), n)
    else
      let v := newtonStep g k input v0 v1 r0 r1
      let fo := run_svf g k s0 s1 input v.1 v.2
      newtonLoop g k s0 s1 input v.1 v.2 (fo.1 - v.1) (fo.2 - v.2) (n + 1)
  else ((v0, v1), n)
termination_by 101 - n
decreasing_by omega

/-- run_svf_newton2 of src/lib.rs: the initial estimate comes from the
state (EstimateSource::State), the capped Newton loop refines it, the
final estimate is written to vout and the output sample is selected from
it by mode. -/
noncomputable def run_svf_newton2 (f : SVF) (input : ℝ) : SVF × ℝ :=
  let g := f.params.g
  let k := f.params.res
  let v0 := f.s0
  let v1 := f.s1
  let fo := run_svf g k f.s0 f.s1 input v0 v1
  let ve := (newtonLoop g k f.s0 f.s1 input v0 v1 (fo.1 - v0) (fo.2 - v1) 0).1
  ({ f with vout0 := ve.1, vout1 := ve.2 },
   modeOutput f.params.mode input k ve.1 ve.2)

/-- Number of Newton refinement passes run_svf_newton2 performs: the final
value of its n_iterations counter. -/
noncomputable def newton2Count (f : SVF) (input : ℝ) : ℕ :=
  let g := f.params.g
  let k := f.params.res
  let fo := run_svf g k f.s0 f.s1 input f.s0 f.s1
  (newtonLoop g k f.s0 f.s1 input f.s0 f.s1
    (fo.1 - f.s0) (fo.2 - f.s1) 0).2

/-- tick_pivotal of src/lib.rs: pre-scale the input by (drive + 1), run
the fixed-pivot solver, then update the states. -/
noncomputable def tick_pivotal (f : SVF) (input : ℝ) : SVF × ℝ :=
  let r := run_svf_pivotal f (input * (f.params.drive + 1))
  (update_state r.1, r.2)

/-- tick_newton of src/lib.rs: pre-scale the input by (drive + 1), run the
capped Newton solver, then update the states. -/
noncomputable def tick_newton (f : SVF) (input : ℝ) : SVF × ℝ :=
  let r := run_svf_newton2 f (input * (f.params.drive + 1))
  (update_state r.1, r.2)

/-- Spec formulation of the implicit system of section 4.2, with the
nonlinearity slots made explicit: component one is
g·fnl(input − (k−1)·v0 − sat1(v0) − v1) + s0 and component two is
g·sat2(v0) + s1. The spec demands sat1 = sat2. -/
def specSystem (fnl sat1 sat2 : ℝ → ℝ) (g k s0 s1 input v0 v1 : ℝ) : ℝ × ℝ :=
  (g * fnl (input - (k - 1) * v0 - sat1 v0 - v1) + s0, g * sat2 v0 + s1)

/-- Claim C5: both complete-tick operations end by updating both
integrator states via trapezoidal integration, s[n] := 2·vout[n] − s[n],
using the vout values solved in that same tick (the vout stored in the
post-tick state). -/
theorem c5_trapezoidal_update (f : SVF) (input : ℝ) :
    (tick_pivotal f input).1.s0 = 2 * (tick_pivotal f input).1.vout0 - f.s0 ∧
    (tick_pivotal f input).1.s1 = 2 * (tick_pivotal f input).1.vout1 - f.s1 ∧
    (tick_newton f input).1.s0 = 2 * (tick_newton f input).1.vout0 - f.s0 ∧
    (tick_newton f input).1.s1 = 2 * (tick_newton f input).1.vout1 - f.s1 :=
  ⟨rfl, rfl, rfl, rfl⟩

/-- Claim C9: coefficient derivation is deterministic and idempotent:
update_g only rewrites g from cutoff and sample rate (which it leaves
unchanged), so calling it twice in succession leaves the parameter object,
and in particular g, exactly as the first call produced it. -/
theorem c9_update_g_idempotent (p : FilterParameters) :
    update_g (update_g p) = update_g p ∧
    (update_g p).g = Real.tan (π * p.cutoff / p.sample_rate) := by
  constructor <;> simp [update_g]

/-- Claim C10: the linearizing gains of run_svf_pivotal are guarded: a
zero estimate keeps the initial gain 1, a nonzero estimate divides the
saturator value by the estimate, and in both cases gain·estimate equals
the saturator value, so the division never has a zero divisor. -/
theorem c10_pivotal_gain_guard (x : ℝ) :
    pivotalA2 0 = 1 ∧ tanhGain 0 = 1 ∧
    (x ≠ 0 → pivotalA2 x = v_t * Real.arsinh (x / i_s) / x) ∧
    (x ≠ 0 → tanhGain x = Real.tanh x / x) ∧
    pivotalA2 x * x = v_t * Real.arsinh (x / i_s) ∧
    tanhGain x * x = Real.tanh x := by
  refine ⟨by simp [pivotalA2], by simp [tanhGain],
    fun h => by simp [pivotalA2, h], fun h => by simp [tanhGain, h], ?_, ?_⟩
  · by_cases h : x = 0
    · simp [pivotalA2, h, i_s]
    · simp only [pivotalA2, h, ne_eq, not_false_iff, if_true]
      exact div_mul_cancel₀ _ h
  · by_cases h : x = 0
    · simp [tanhGain, h]
    · simp only [tanhGain, h, ne_eq, not_false_iff, if_true]
      exact div_mul_cancel₀ _ h

/-- Witness for c10_pivotal_gain_guard at the nonzero estimate 1. -/
theorem c10_pivotal_gain_guard_witness :
    pivotalA2 1 = v_t * Real.arsinh (1 / i_s) / 1 ∧
    tanhGain 1 = Real.tanh 1 / 1 :=
  ⟨(c10_pivotal_gain_guard 1).2.2.1 (by norm_num),
   (c10_pivotal_gain_guard 1).2.2.2.1 (by norm_num)⟩

/-- Claim C7: for every parameter index outside 0..=3, set_parameter is a
no-op leaving the whole parameter object (cutoff, res, drive, mode and g)
unchanged, and get_parameter returns 0. -/
theorem c7_invalid_index_noop (c : ParamConvs) (i : ℤ) (v : ℝ)
    (p : FilterParameters) (h : i < 0 ∨ 3 < i) :
    set_parameter c i v p = p ∧ get_parameter c i p = 0 := by
  have h0 : ¬ i = 0 := by omega
  have h1 : ¬ i = 1 := by omega
  have h2 : ¬ i = 2 := by omega
  have h3 : ¬ i = 3 := by omega
  constructor <;> simp [set_parameter, get_parameter, h0, h1, h2, h3]

/-- Witness for c7_invalid_index_noop at the concrete invalid index 4. -/
theorem c7_invalid_index_noop_witness :
    set_parameter idConvs 4 (1 / 2) ⟨1000, 1, 0, 0, 44100, 0⟩ =
      ⟨1000, 1, 0, 0, 44100, 0⟩ ∧
    get_parameter idConvs 4 ⟨1000, 1, 0, 0, 44100, 0⟩ = 0 :=
  c7_invalid_index_noop idConvs 4 (1 / 2) ⟨1000, 1, 0, 0, 44100, 0⟩
    (Or.inr (by norm_num))

/-- Claim C8: in both complete ticks the input sample is multiplied by
(1 + drive) before being handed to the solver, and drive acts purely as
that input gain: the solvers themselves ignore the drive field. -/
theorem c8_drive_prescale (f : SVF) (x d : ℝ) (p : FilterParameters)
    (v0 v1 s0 s1 i : ℝ) :
    tick_pivotal f x =
      (update_state (run_svf_pivotal f ((1 + f.params.drive) * x)).1,
       (run_svf_pivotal f ((1 + f.params.drive) * x)).2) ∧
    tick_newton f x =
      (update_state (run_svf_newton2 f ((1 + f.params.drive) * x)).1,
       (run_svf_newton2 f ((1 + f.params.drive) * x)).2) ∧
    (run_svf_pivotal ⟨{ p with drive := d }, v0, v1, s0, s1⟩ i).2 =
      (run_svf_pivotal ⟨{ p with drive := 0 }, v0, v1, s0, s1⟩ i).2 ∧
    (run_svf_newton2 ⟨{ p with drive := d }, v0, v1, s0, s1⟩ i).2 =
      (run_svf_newton2 ⟨{ p with drive := 0 }, v0, v1, s0, s1⟩ i).2 := by
  have hx : x * (f.params.drive + 1) = (1 + f.params.drive) * x := by ring
  refine ⟨?_, ?_, rfl, rfl⟩
  · simp only [tick_pivotal, hx]
  · simp only [tick_newton, hx]

/-- Claim C4: every solver variant ends with the shared mode-selection
block, and that block realizes the table of the spec: lowpass = vout1,
highpass = input − k·vout0 − vout1, bandpass = vout0, notch =
input − k·vout0, peak = input − 2·vout1 − k·vout0, and every remaining
mode value the normalized bandpass k·vout0 — six combinations in all. -/
theorem c4_mode_table (f : SVF) (input : ℝ) (m : ℕ) (i k v0 v1 : ℝ) :
    (run_svf_linear f input).2 = modeOutput f.params.mode input f.params.res
      (run_svf_linear f input).1.vout0 (run_svf_linear f input).1.vout1 ∧
    (run_svf_pivotal f input).2 = modeOutput f.params.mode input f.params.res
      (run_svf_pivotal f input).1.vout0 (run_svf_pivotal f input).1.vout1 ∧
    (run_svf_newton2 f input).2 = modeOutput f.params.mode input f.params.res
      (run_svf_newton2 f input).1.vout0 (run_svf_newton2 f input).1.vout1 ∧
    modeOutput 0 i k v0 v1 = v1 ∧
    modeOutput 1 i k v0 v1 = i - k * v0 - v1 ∧
    modeOutput 2 i k v0 v1 = v0 ∧
    modeOutput 3 i k v0 v1 = i - k * v0 ∧
    modeOutput 4 i k v0 v1 = i - 2 * v1 - k * v0 ∧
    (5 ≤ m → modeOutput m i k v0 v1 = k * v0) := by
  refine ⟨rfl, rfl, rfl, rfl, rfl, rfl, rfl, rfl, fun hm => ?_⟩
  obtain ⟨j, rfl⟩ : ∃ j, m = j + 5 := ⟨m - 5, by omega⟩
  rfl

/-- Witness for c4_mode_table at mode 5, the normalized bandpass arm. -/
theorem c4_mode_table_witness : modeOutput 5 1 2 3 4 = 2 * 3 :=
  (c4_mode_table ⟨⟨0, 0, 0, 0, 0, 0⟩, 0, 0, 0, 0⟩ 0 5 1 2 3 4).2.2.2.2.2.2.2.2
    (by norm_num)

/-- Distinct cutoff-to-rate ratios below one half give distinct warped
coefficients, since tan is strictly monotone on (−π/2, π/2). -/
theorem tan_pi_mul_ne (a b : ℝ) (ha : 0 < a) (hab : a < b) (hb : b < 1 / 2) :
    Real.tan (π * a) ≠ Real.tan (π * b) := by
  have hpi := Real.pi_pos
  have hma : π * a ∈ Set.Ioo (-(π / 2)) (π / 2) := by
    constructor
    · nlinarith
    · nlinarith
  have hmb : π * b ∈ Set.Ioo (-(π / 2)) (π / 2) := by
    constructor
    · nlinarith
    · nlinarith
  exact ne_of_lt (Real.strictMonoOn_tan hma hmb (by nlinarith))

/-- Claim C2: after set_parameter with index 0 the invariant
g = tan(π·cutoff/sample_rate) holds for the new cutoff, but
set_sample_rate stores the new rate without recomputing g: at cutoff
1000 Hz, moving the rate from 44100 to 88200 leaves the stale
g = tan(π·1000/44100), which differs from the required
tan(π·1000/88200). -/
theorem c2_g_recompute :
    (∀ (c : ParamConvs) (v : ℝ) (p : FilterParameters),
      (set_parameter c 0 v p).g =
        Real.tan (π * (set_parameter c 0 v p).cutoff /
          (set_parameter c 0 v p).sample_rate)) ∧
    (set_sample_rate 88200
        ⟨1000, 0, 0, 0, 44100, Real.tan (π * 1000 / 44100)⟩).g ≠
      Real.tan (π *
        (set_sample_rate 88200
          ⟨1000, 0, 0, 0, 44100, Real.tan (π * 1000 / 44100)⟩).cutoff /
        (set_sample_rate 88200
          ⟨1000, 0, 0, 0, 44100, Real.tan (π * 1000 / 44100)⟩).sample_rate) := by
  constructor
  · intro c v p
    simp [set_parameter, update_g]
  · simp only [set_sample_rate]
    have h1 : π * 1000 / 88200 = π * (1000 / 88200) := by ring
    have h2 : π * 1000 / 44100 = π * (1000 / 44100) := by ring
    rw [h1, h2]
    exact (tan_pi_mul_ne (1000 / 88200) (1000 / 44100)
      (by norm_num) (by norm_num) (by norm_num)).symm

/-- Claim C6 counterexample: a cutoff write through set_parameter takes
full effect inside the call itself: with the identity conversion bundle,
the coefficient right after the write already equals the final target
tan(π·1000/44100) although the old coefficient tan(π·100/44100) differed,
so the value consumed by the core steps directly from the old value to
the new target with no intermediate sample. -/
theorem c6_immediate_step_counterexample :
    (set_parameter idConvs 0 1000
        ⟨100, 0, 0, 0, 44100, Real.tan (π * 100 / 44100)⟩).g =
      Real.tan (π * 1000 / 44100) ∧
    Real.tan (π * 100 / 44100) ≠ Real.tan (π * 1000 / 44100) := by
  constructor
  · simp [set_parameter, update_g, idConvs]
  · have h1 : π * 100 / 44100 = π * (100 / 44100) := by ring
    have h2 : π * 1000 / 44100 = π * (1000 / 44100) := by ring
    rw [h1, h2]
    exact tan_pi_mul_ne (100 / 44100) (1000 / 44100)
      (by norm_num) (by norm_num) (by norm_num)

/-- Claim C6 amended: parameter changes are applied immediately rather
than smoothed: a cutoff write recomputes g to its final target within
set_parameter itself, and no tick modifies the parameter object, so the
per-sample path never advances any interpolation of the consumed
values. -/
theorem c6_immediate_application (c : ParamConvs) (v : ℝ)
    (p : FilterParameters) (f : SVF) (x : ℝ) :
    (set_parameter c 0 v p).g =
      Real.tan (π * c.cutoffFromNorm v / p.sample_rate) ∧
    (set_parameter c 0 v p).cutoff = c.cutoffFromNorm v ∧
    (tick_newton f x).1.params = f.params ∧
    (tick_pivotal f x).1.params = f.params :=
  ⟨by simp [set_parameter, update_g], by simp [set_parameter, update_g],
   rfl, rfl⟩

/-- Claim C3 counterexample: no single saturating nonlinearity can occupy
both slots of the implicit system computed by run_svf: the second
component forces sat = tanh, after which the first component would force
sinh and tanh to coincide away from zero, which fails. -/
theorem c3_no_shared_sat :
    ¬ ∃ fnl sat : ℝ → ℝ, ∀ g k s0 s1 input v0 v1 : ℝ,
      run_svf g k s0 s1 input v0 v1 =
        specSystem fnl sat sat g k s0 s1 input v0 v1 := by
  rintro ⟨fnl, sat, h⟩
  have hsat : ∀ x : ℝ, sat x = Real.tanh x := by
    intro x
    have hx := congrArg Prod.snd (h 1 0 0 0 0 x 0)
    simpa [run_svf, specSystem] using hx.symm
  have hfst : ∀ t y : ℝ, Real.tanh (y - Real.sinh t) = fnl (y - Real.tanh t) := by
    intro t y
    have hx := congrArg Prod.fst (h 1 1 0 0 y t 0)
    simpa [run_svf, specSystem, hsat] using hx
  have hf : ∀ y : ℝ, fnl y = Real.tanh y := by
    intro y
    have hx := hfst 0 y
    simpa using hx.symm
  have hkey : Real.tanh (Real.tanh 1 - Real.sinh 1) = 0 := by
    have hx := hfst 1 (Real.tanh 1)
    rw [hf] at hx
    simpa using hx
  have hne : Real.tanh 1 - Real.sinh 1 ≠ 0 := by
    have hs : 0 < Real.sinh 1 := Real.sinh_pos_iff.mpr (by norm_num)
    have hc : 1 < Real.cosh 1 := Real.one_lt_cosh.mpr (by norm_num)
    have hlt : Real.tanh 1 < Real.sinh 1 := by
      rw [Real.tanh_eq_sinh_div_cosh]
      exact div_lt_self hs hc
    linarith
  have hz : Real.tanh 1 - Real.sinh 1 = 0 := by
    have hcosh := Real.cosh_pos (Real.tanh 1 - Real.sinh 1)
    rw [Real.tanh_eq_sinh_div_cosh] at hkey
    rcases div_eq_zero_iff.mp hkey with hs | hc
    · exact Real.sinh_eq_zero.mp hs
    · linarith
  exact hne hz

/-- Claim C3 amended: run_svf evaluates the spec-shaped implicit system
with f = tanh, with the anti-saturator sinh in the feedback slot of the
first equation and with the saturator tanh in the second equation — two
different members of the hyperbolic family, not one shared sat. -/
theorem c3_run_svf_system (g k s0 s1 input v0 v1 : ℝ) :
    run_svf g k s0 s1 input v0 v1 =
      specSystem Real.tanh Real.sinh Real.tanh g k s0 s1 input v0 v1 := by
  unfold run_svf specSystem
  norm_num
  left
  ring_nf


/-- The iteration counter of the Newton loop never exceeds 101: a pass
performs a refinement step only while the counter is at most 100 and
increments it once. -/
theorem newtonLoop_count_le (g k s0 s1 input : ℝ) (m : ℕ) :
    ∀ (n : ℕ) (v0 v1 r0 r1 : ℝ), 101 - n ≤ m → n ≤ 101 →
      (newtonLoop g k s0 s1 input v0 v1 r0 r1 n).2 ≤ 101 := by
  induction m with
  | zero =>
    intro n v0 v1 r0 r1 h1 h2
    have hn : n = 101 := by omega
    subst hn
    rw [newtonLoop]
    split
    · rw [dif_pos (by norm_num : (100 : ℕ) < 101)]
    · exact le_refl _
  | succ m ih =>
    intro n v0 v1 r0 r1 h1 h2
    rw [newtonLoop]
    split
    · by_cases hn : 100 < n
      · rw [dif_pos hn]
        exact h2
      · rw [dif_neg hn]
        exact ih (n + 1) _ _ _ _ (by omega) (by omega)
    · exact h2
